import Mathlib

/-!
Verification development for the persistence module of the Marca-Tu-Ritmo
fitness tracker. The embedded code is the SQLite-backed workouts store
(file src/unnamed/part_006, a revision of app/utils/db.ts): schema
migration with backup and rollback, backup restore, and the typed CRUD
surface. SQL text values are modeled as Option String (none is NULL),
the database as an explicit state record, and each async routine as a
state-and-error passing function. Errors thrown mid-sequence keep the
state changes already made, as the source issues individually committed
statements with no transactions.
-/

namespace WorkoutDb

/-- An SQL text value: NULL or a string. -/
abbrev SqlText := Option String

/-- One physical row of the workouts relation. Column id is the INTEGER
PRIMARY KEY; name and date are declared NOT NULL; every other column is
nullable text. -/
structure Row where
  id : Nat
  name : String
  date : String
  type : SqlText
  description : SqlText
  result : SqlText
  weight : SqlText
  reps : SqlText
  distance : SqlText
  time : SqlText
  measurement_type : SqlText
  notes : SqlText
deriving Repr, DecidableEq

/-- The state of the embedded database file. The schema varies across
application versions: the flags record whether the workouts table exists
and whether it has the later measurement_type, distance and time columns
(the remaining columns are present in every revision of the schema).
nextId models the AUTOINCREMENT counter for assigned ids. -/
structure DB where
  tableExists : Bool
  hasMeasurementType : Bool
  hasDistance : Bool
  hasTime : Bool
  rows : List Row
  nextId : Nat
deriving Repr, DecidableEq

/-- The world visible to the persistence module: the database plus the
backup artifacts written to the document directory. Each artifact stands
for the JSON-decoded content of one timestamped backup file, in creation
order. -/
structure World where
  db : DB
  backups : List (List Row)
deriving Repr, DecidableEq

/-- The distinguishable failures surfaced by the module. The first three
are SQLite statement errors; the remaining ones are errors thrown by the
module itself. -/
inductive DbError where
  | noSuchTable
  | noSuchColumn
  | uniqueConstraint
  | idRequired
  | recordNotFound
  | verificationFailed
  | migrationValidationFailed
  | backupCorrupt
deriving Repr, DecidableEq

/-- A database computation: state passing over the world, with thrown
errors. A thrown error keeps the state changes made before it. -/
def DbM (α : Type) : Type := World → Except DbError α × World

/-- Return a value without touching the state. -/
def retM {α : Type} (a : α) : DbM α := fun w => (Except.ok a, w)

/-- Throw an error, keeping the current state. -/
def throwM {α : Type} (e : DbError) : DbM α := fun w => (Except.error e, w)

/-- Sequence two computations; an error in the first short-circuits. -/
def bindM {α β : Type} (m : DbM α) (f : α → DbM β) : DbM β := fun w =>
  match m w with
  | (Except.ok a, w2) => f a w2
  | (Except.error e, w2) => (Except.error e, w2)

/-- Models a JS try/catch block: the handler sees the error and the state
reached when it was thrown. -/
def tryCatchM {α : Type} (m : DbM α) (h : DbError → DbM α) : DbM α := fun w =>
  match m w with
  | (Except.ok a, w2) => (Except.ok a, w2)
  | (Except.error e, w2) => h e w2

/-- Models getAllAsync of SELECT * FROM workouts: every row, or an SQL
error when the table does not exist. -/
def getRows : DbM (List Row) := fun w =>
  if w.db.tableExists then (Except.ok w.db.rows, w)
  else (Except.error DbError.noSuchTable, w)

/-- The column list reported by PRAGMA table_info(workouts): empty when
the table does not exist, and reflecting the schema flags otherwise. -/
def tableColumns (db : DB) : List String :=
  if db.tableExists then
    ["id", "name", "date", "type", "description", "result", "weight", "reps"]
      ++ (if db.hasDistance then ["distance"] else [])
      ++ (if db.hasTime then ["time"] else [])
      ++ (if db.hasMeasurementType then ["measurement_type"] else [])
      ++ ["notes"]
  else []

/-- PRAGMA table_info never throws. -/
def tableInfoM : DbM (List String) := fun w => (Except.ok (tableColumns w.db), w)

/-- A database holding an empty workouts table with the complete current
column set. -/
def freshFullDb : DB :=
  { tableExists := true, hasMeasurementType := true, hasDistance := true,
    hasTime := true, rows := [], nextId := 1 }

/-- A database file holding no workouts table at all. -/
def noTableDb : DB :=
  { tableExists := false, hasMeasurementType := false, hasDistance := false,
    hasTime := false, rows := [], nextId := 1 }

/-- CREATE TABLE IF NOT EXISTS workouts with the complete current column
set (part_006 lines 96-111): a no-op when the table exists, otherwise a
fresh empty table carrying every column. -/
def createTableIfNotExistsM : DbM Unit := fun w =>
  if w.db.tableExists then (Except.ok (), w)
  else (Except.ok (), { w with db := freshFullDb })

/-- ALTER TABLE workouts ADD COLUMN measurement_type TEXT (line 128);
existing rows read NULL in the new column. Only reached when the column
is absent. -/
def alterAddMeasurementTypeM : DbM Unit := fun w =>
  if w.db.tableExists then
    (Except.ok (), { w with db := { w.db with hasMeasurementType := true } })
  else (Except.error DbError.noSuchTable, w)

/-- JS truthiness of a nullable string: NULL, undefined and the empty
string are falsy; every other string is truthy. -/
def truthy : SqlText → Bool
  | none => false
  | some s => s != ""

/-- Models the JS pattern v or-else d on a nullable string: d when v is
NULL or empty, v otherwise. -/
def jsOr (v : SqlText) (d : String) : String :=
  match v with
  | none => d
  | some s => if s = "" then d else s

/-- The CASE expression of the backfill UPDATE in migrateDatabase (lines
132-142). It branches on IS NOT NULL, so empty strings count as present. -/
def sqlCaseMT (r : Row) : String :=
  if r.weight.isSome && r.reps.isSome then "weight_reps"
  else if r.time.isSome && r.distance.isSome then "distance_time"
  else if r.time.isSome then "time_only"
  else if r.reps.isSome then "reps_only"
  else "weight_reps"

/-- The backfill UPDATE applied to the row list: only rows WHERE type
equals the exercise literal are touched (SQL equality never matches a
NULL discriminator). -/
def backfillRows (rows : List Row) : List Row :=
  rows.map fun r =>
    if r.type == some "exercise" then { r with measurement_type := some (sqlCaseMT r) }
    else r

/-- The backfill UPDATE statement (lines 132-142). It reads the weight,
reps, time and distance columns and writes measurement_type, so it is an
SQL error when the table or any of those columns is missing. -/
def backfillM : DbM Unit := fun w =>
  if !w.db.tableExists then (Except.error DbError.noSuchTable, w)
  else if !(w.db.hasMeasurementType && w.db.hasTime && w.db.hasDistance) then
    (Except.error DbError.noSuchColumn, w)
  else (Except.ok (), { w with db := { w.db with rows := backfillRows w.db.rows } })

/-- The enumeration accepted for measurement_type (line 184). -/
def validMeasurementTypes : List String :=
  ["weight_reps", "time_only", "distance_time", "reps_only"]

/-- The columns validateMigration requires (line 174). -/
def requiredColumns : List String := ["id", "name", "date", "type", "measurement_type"]

/-- The invalid-record query of validateMigration (lines 183-185):
exercise rows whose measurement_type is NULL or outside the
enumeration. -/
def invalidExerciseRows (rows : List Row) : List Row :=
  rows.filter fun r =>
    r.type == some "exercise" &&
      (r.measurement_type.isNone ||
        !(validMeasurementTypes.contains (r.measurement_type.getD "")))

/-- Embeds validateMigration (lines 167-198): it catches its own errors
and reports success as a boolean. The required-column check runs first;
when the table is missing the reported column list is empty, so the
check fails before the row query could throw. -/
def validateMigrationM : DbM Bool := fun w =>
  if requiredColumns.all (fun c => (tableColumns w.db).contains c) then
    (Except.ok (invalidExerciseRows w.db.rows).isEmpty, w)
  else (Except.ok false, w)

/-- Embeds backupDatabase (lines 20-42): SELECT every row, then write the
JSON artifact to a fresh timestamped file and return its location. The
snapshot is appended to the artifact list and returned, standing for the
written file and its path. -/
def backupDatabaseM : DbM (List Row) :=
  bindM getRows fun rows => fun w =>
    (Except.ok rows, { w with backups := w.backups ++ [rows] })

/-- Embeds resetDatabase (lines 685-712): close the connection, delete
the database file when the platform is not web, and reopen. Reopening
after the delete yields an empty database with no tables, because getDb
in this revision runs no CREATE TABLE statement. On web the file is kept,
so the schema and rows survive the reopen. -/
def resetDatabaseM (isWeb : Bool) : DbM Unit := fun w =>
  if isWeb then (Except.ok (), w)
  else (Except.ok (), { w with db := noTableDb })

/-- An INSERT naming the full column set with an explicit id. It is an
SQL error when the table or a referenced column is missing, or when the
id is already taken (INTEGER PRIMARY KEY). The AUTOINCREMENT counter
never reuses an inserted id. -/
def insertFullRowM (r : Row) : DbM Unit := fun w =>
  if !w.db.tableExists then (Except.error DbError.noSuchTable, w)
  else if !(w.db.hasMeasurementType && w.db.hasTime && w.db.hasDistance) then
    (Except.error DbError.noSuchColumn, w)
  else if w.db.rows.any (fun r2 => r2.id == r.id) then
    (Except.error DbError.uniqueConstraint, w)
  else (Except.ok (), { w with db := { w.db with
    rows := w.db.rows ++ [r], nextId := max w.db.nextId (r.id + 1) } })

/-- The row written back by restoreFromBackup for one backup record
(lines 60-76): every nullable field except type is coalesced with an
empty-string default; type is bound exactly as stored, so a NULL
discriminator stays NULL. -/
def restoredRow (r : Row) : Row :=
  { id := r.id, name := r.name, date := r.date, type := r.type,
    description := some (jsOr r.description ""), result := some (jsOr r.result ""),
    weight := some (jsOr r.weight ""), reps := some (jsOr r.reps ""),
    distance := some (jsOr r.distance ""), time := some (jsOr r.time ""),
    measurement_type := some (jsOr r.measurement_type ""), notes := some (jsOr r.notes "") }

/-- The restore loop (lines 59-77): reinsert each backup record in order;
the first SQL error aborts the loop and propagates. -/
def insertRestoredRowsM : List Row → DbM Unit
  | [] => retM ()
  | r :: rs => bindM (insertFullRowM (restoredRow r)) fun _ => insertRestoredRowsM rs

/-- Embeds restoreFromBackup (lines 44-84). The artifact argument models
the outcome of reading and JSON-decoding the file at the given path:
none when the read or the parse fails. Read and parse happen before
anything touches the database. -/
def restoreFromBackupM (isWeb : Bool) (artifact : Option (List Row)) : DbM Unit :=
  match artifact with
  | none => throwM DbError.backupCorrupt
  | some records =>
    bindM (resetDatabaseM isWeb) fun _ => insertRestoredRowsM records

/-- The body of the try block of migrateDatabase after the backup was
taken (lines 92-153): ensure the table, introspect the columns, add and
backfill measurement_type when absent, then validate. The early return
for an unavailable table-info result is kept; with the table just
ensured the reported column list is never empty. -/
def migrateBodyM : DbM Unit :=
  bindM createTableIfNotExistsM fun _ =>
  bindM tableInfoM fun cols =>
  if cols.isEmpty then retM ()
  else
    bindM (if !(cols.contains "measurement_type") then
             bindM alterAddMeasurementTypeM fun _ => backfillM
           else retM ()) fun _ =>
    bindM validateMigrationM fun ok =>
    if ok then retM () else throwM DbError.migrationValidationFailed

/-- Embeds migrateDatabase (lines 86-165): take a backup, run the body,
and on a body error restore from the just-written backup and rethrow.
An error thrown by the restore itself replaces the original error, as a
JS throw inside a catch block does. An error in the backup propagates
directly and no restore is attempted. -/
def migrateDatabaseM (isWeb : Bool) : DbM Unit :=
  bindM backupDatabaseM fun snapshot =>
  tryCatchM migrateBodyM fun e =>
    bindM (restoreFromBackupM isWeb (some snapshot)) fun _ => throwM e

/-- The measurement kind derived from the populated fields, shared by the
rebuild path (part_006 lines 261-268) and by updateExercise for a stored
row without one (lines 476-481): branches on JS truthiness (non-NULL and
non-empty), defaulting to reps_only. -/
def derivedMT (r : Row) : String :=
  if truthy r.weight && truthy r.reps then "weight_reps"
  else if truthy r.time && truthy r.distance then "distance_time"
  else if truthy r.time then "time_only"
  else "reps_only"

/-- The row reinserted by the rebuild path for an old exercise record
(lines 270-286): explicit id, coalesced fields, computed measurement
type. -/
def rebuiltExerciseRow (r : Row) : Row :=
  { id := r.id, name := r.name, date := r.date, type := some "exercise",
    description := some (jsOr r.description ""), result := some (jsOr r.result ""),
    weight := some (jsOr r.weight ""), reps := some (jsOr r.reps ""),
    distance := some (jsOr r.distance ""), time := some (jsOr r.time ""),
    measurement_type := some (derivedMT r), notes := some (jsOr r.notes "") }

/-- The row reinserted by the rebuild path for every other old record
(lines 289-300): the wod INSERT names only id, name, date, type,
description, result and notes, so the remaining columns are NULL. -/
def rebuiltWodRow (r : Row) : Row :=
  { id := r.id, name := r.name, date := r.date, type := some "wod",
    description := some (jsOr r.description ""), result := some (jsOr r.result ""),
    weight := none, reps := none, distance := none, time := none,
    measurement_type := none, notes := some (jsOr r.notes "") }

/-- One reinserted row of the rebuild path: a record is an exercise only
when its stored discriminator is strictly the exercise literal; every
other record, a NULL discriminator included, takes the wod branch
(line 259). -/
def rebuiltRow (r : Row) : Row :=
  if r.type == some "exercise" then rebuiltExerciseRow r else rebuiltWodRow r

/-- The reinsert loop of the rebuild path (lines 258-302). -/
def insertRebuiltRowsM : List Row → DbM Unit
  | [] => retM ()
  | r :: rs => bindM (insertFullRowM (rebuiltRow r)) fun _ => insertRebuiltRowsM rs

/-- DROP TABLE IF EXISTS workouts (line 237): the table, its rows and its
AUTOINCREMENT counter are gone. -/
def dropTableM : DbM Unit := fun w =>
  (Except.ok (), { w with db := noTableDb })

/-- CREATE TABLE workouts with the complete column set (lines 240-255),
run right after the drop. -/
def createFullTableM : DbM Unit := fun w =>
  (Except.ok (), { w with db := freshFullDb })

/-- Embeds the startup schema-evolution routine of part_006 (lines
200-314): introspect the columns; when measurement_type, distance or
time is missing, read every row into memory, drop and recreate the
table with the full column set, and reinsert each row, computing the
measurement type per exercise row; otherwise the schema is up to date
and nothing is touched. The in-memory read is an SQL error when the
table does not exist. -/
def initDatabaseM : DbM Unit :=
  bindM tableInfoM fun cols =>
  if !(cols.contains "measurement_type") || !(cols.contains "distance")
      || !(cols.contains "time") then
    bindM getRows fun existing =>
    bindM dropTableM fun _ =>
    bindM createFullTableM fun _ =>
    insertRebuiltRowsM existing
  else retM ()

/-- The logical exercise record returned by the read path (the Exercise
interface of part_006 lines 316-327, with the id the store reports). -/
structure ExerciseOut where
  id : Nat
  name : String
  date : String
  measurement_type : String
  weight : String
  reps : String
  distance : String
  time : String
  notes : SqlText
deriving Repr, DecidableEq

/-- The logical wod record returned by the read path (the WOD interface
of lines 329-337). -/
structure WODOut where
  id : Nat
  name : String
  date : String
  description : String
  result : String
  notes : SqlText
deriving Repr, DecidableEq

/-- The discriminated union returned by getAllLogs (line 339). -/
inductive WorkoutLog where
  | exercise (e : ExerciseOut)
  | wod (v : WODOut)
deriving Repr, DecidableEq

/-- The discriminator getAllLogs computes per row (line 373): a falsy
stored value (NULL or empty) is inferred from the description, truthy
meaning wod and falsy meaning exercise. -/
def rowTag (r : Row) : String :=
  match r.type with
  | none => if truthy r.description then "wod" else "exercise"
  | some s => if s = "" then (if truthy r.description then "wod" else "exercise") else s

/-- The per-row mapping of getAllLogs (lines 372-395). Any discriminator
other than the wod literal takes the exercise branch. An exercise with a
falsy stored measurement_type is reported as weight_reps. -/
def mapRowToLog (r : Row) : WorkoutLog :=
  if rowTag r = "wod" then
    WorkoutLog.wod { id := r.id, name := r.name, date := r.date,
                     description := jsOr r.description "", result := jsOr r.result "",
                     notes := r.notes }
  else
    WorkoutLog.exercise { id := r.id, name := r.name, date := r.date,
                          measurement_type := jsOr r.measurement_type "weight_reps",
                          weight := jsOr r.weight "", reps := jsOr r.reps "",
                          distance := jsOr r.distance "", time := jsOr r.time "",
                          notes := r.notes }

/-- The ORDER BY date DESC comparator on rows. -/
def dateDesc (a b : Row) : Prop := b.date ≤ a.date

instance : DecidableRel dateDesc :=
  fun a b => inferInstanceAs (Decidable (b.date ≤ a.date))

instance : IsTotal Row dateDesc :=
  ⟨fun a b => le_total b.date a.date⟩

instance : IsTrans Row dateDesc :=
  ⟨fun _ _ _ h1 h2 => le_trans h2 h1⟩

/-- Embeds getAllLogs (lines 341-400): SELECT * FROM workouts ORDER BY
date DESC, then map each row to its tagged logical record. The ORDER BY
is modeled as an insertion sort by the comparator; SQLite does not fix
the order among equal keys, and any date-descending order refines the
contract. The preliminary count query is an SQL error when the table
does not exist. -/
def getAllLogsM : DbM (List WorkoutLog) :=
  bindM getRows fun rows =>
  retM ((rows.insertionSort dateDesc).map mapRowToLog)

/-- The input of addWOD: Omit WOD id (line 573). -/
structure WODNew where
  name : String
  date : String
  description : SqlText
  result : SqlText
  notes : SqlText
deriving Repr, DecidableEq

/-- The input of addExercise: Omit Exercise id (line 596). The
measurement type is a required member of the enumeration in the source
typing. -/
structure ExerciseNew where
  name : String
  date : String
  measurement_type : String
  weight : SqlText
  reps : SqlText
  distance : SqlText
  time : SqlText
  notes : SqlText
deriving Repr, DecidableEq

/-- The row inserted by addWOD (lines 578-588): an assigned id, the wod
discriminator, coalesced description, result and notes; the exercise
columns are not named and stay NULL. -/
def newWodRow (v : WODNew) (i : Nat) : Row :=
  { id := i, name := v.name, date := v.date, type := some "wod",
    description := some (jsOr v.description ""), result := some (jsOr v.result ""),
    weight := none, reps := none, distance := none, time := none,
    measurement_type := none, notes := some (jsOr v.notes "") }

/-- Embeds addWOD (lines 573-594). -/
def addWODM (v : WODNew) : DbM Unit := fun w =>
  if !w.db.tableExists then (Except.error DbError.noSuchTable, w)
  else (Except.ok (), { w with db := { w.db with
    rows := w.db.rows ++ [newWodRow v w.db.nextId], nextId := w.db.nextId + 1 } })

/-- The columnExists helper (lines 560-571). -/
def columnExists (db : DB) (c : String) : Bool := (tableColumns db).contains c

/-- The row inserted by addExercise (lines 604-635): when the schema has
the measurement_type column the new format stores the given kind,
otherwise the old format leaves it NULL. Both formats name the distance
and time columns. -/
def newExerciseRow (db : DB) (v : ExerciseNew) : Row :=
  { id := db.nextId, name := v.name, date := v.date, type := some "exercise",
    description := none, result := none,
    weight := some (jsOr v.weight ""), reps := some (jsOr v.reps ""),
    distance := some (jsOr v.distance ""), time := some (jsOr v.time ""),
    measurement_type := if columnExists db "measurement_type"
                        then some v.measurement_type else none,
    notes := some (jsOr v.notes "") }

/-- Embeds addExercise (lines 596-641). Both insert formats reference the
distance and time columns, an SQL error when the schema predates them. -/
def addExerciseM (v : ExerciseNew) : DbM Unit := fun w =>
  if !w.db.tableExists then (Except.error DbError.noSuchTable, w)
  else if !(w.db.hasDistance && w.db.hasTime) then (Except.error DbError.noSuchColumn, w)
  else (Except.ok (), { w with db := { w.db with
    rows := w.db.rows ++ [newExerciseRow w.db v], nextId := w.db.nextId + 1 } })

/-- The update input of updateWOD: the WOD interface, whose id is
optional in the typing and checked for truthiness at run time. -/
structure WODData where
  id : Option Nat
  name : String
  date : String
  description : SqlText
  result : SqlText
  notes : SqlText
deriving Repr, DecidableEq

/-- The update input of updateExercise: the Exercise interface. -/
structure ExerciseData where
  id : Option Nat
  name : String
  date : String
  measurement_type : String
  weight : SqlText
  reps : SqlText
  distance : SqlText
  time : SqlText
  notes : SqlText
deriving Repr, DecidableEq

/-- The row written by the UPDATE of updateWOD (lines 418-429): name,
date, the wod discriminator, coalesced description, result and notes.
The exercise columns are not in the SET list and keep their stored
values. -/
def updatedWodRow (v : WODData) (r : Row) : Row :=
  { r with name := v.name, date := v.date, type := some "wod",
           description := some (jsOr v.description ""),
           result := some (jsOr v.result ""), notes := some (jsOr v.notes "") }

/-- Embeds updateWOD (lines 402-444): a falsy id is rejected first; the
existence check then matches by id only, with no kind scoping; the
UPDATE rewrites every row carrying the id and forces its discriminator
to the wod literal; the verification re-read fails only when no row
carries the id afterwards. -/
def updateWODM (v : WODData) : DbM Unit := fun w =>
  match v.id with
  | none => (Except.error DbError.idRequired, w)
  | some i =>
    if i == 0 then (Except.error DbError.idRequired, w)
    else if !w.db.tableExists then (Except.error DbError.noSuchTable, w)
    else if !(w.db.rows.any fun r => r.id == i) then
      (Except.error DbError.recordNotFound, w)
    else
      let rows2 := w.db.rows.map fun r => if r.id == i then updatedWodRow v r else r
      if rows2.any (fun r => r.id == i) then
        (Except.ok (), { w with db := { w.db with rows := rows2 } })
      else
        (Except.error DbError.verificationFailed, { w with db := { w.db with rows := rows2 } })

/-- The measurement kind updateExercise takes as current for the stored
row (lines 476-481): the stored value when truthy, otherwise derived
from the populated fields. -/
def currentMT (r : Row) : String :=
  match r.measurement_type with
  | none => derivedMT r
  | some s => if s = "" then derivedMT r else s

/-- The field clearing of updateExercise (lines 484-513), keyed on the
submitted measurement kind, applied to the submitted data. -/
def clearFields (v : ExerciseData) : ExerciseData :=
  if v.measurement_type = "reps_only" then
    { v with weight := some "", distance := some "", time := some "" }
  else if v.measurement_type = "time_only" then
    { v with weight := some "", reps := some "", distance := some "" }
  else if v.measurement_type = "distance_time" then
    { v with weight := some "", reps := some "" }
  else if v.measurement_type = "weight_reps" then
    { v with distance := some "", time := some "" }
  else v

/-- The row written by the UPDATE of updateExercise (lines 518-542): the
discriminator is forced to the exercise literal; description and result
are not in the SET list and keep their stored values. -/
def updatedExerciseRow (v : ExerciseData) (r : Row) : Row :=
  { r with name := v.name, date := v.date, type := some "exercise",
           measurement_type := some v.measurement_type,
           weight := some (jsOr v.weight ""), reps := some (jsOr v.reps ""),
           distance := some (jsOr v.distance ""), time := some (jsOr v.time ""),
           notes := some (jsOr v.notes "") }

/-- Embeds updateExercise (lines 446-557): a falsy id is rejected; the
existence check matches by id only (any kind) and takes the first match
as the old record; the clearing runs only when the current kind differs
from the submitted one; the UPDATE names the measurement_type, weight,
reps, distance and time columns, an SQL error when the schema lacks
them; the verification re-read fails only when no row carries the id
afterwards. -/
def updateExerciseM (v : ExerciseData) : DbM Unit := fun w =>
  match v.id with
  | none => (Except.error DbError.idRequired, w)
  | some i =>
    if i == 0 then (Except.error DbError.idRequired, w)
    else if !w.db.tableExists then (Except.error DbError.noSuchTable, w)
    else
      match w.db.rows.find? (fun r => r.id == i) with
      | none => (Except.error DbError.recordNotFound, w)
      | some oldRecord =>
        if !(w.db.hasMeasurementType && w.db.hasDistance && w.db.hasTime) then
          (Except.error DbError.noSuchColumn, w)
        else
          let fin := if currentMT oldRecord != v.measurement_type then clearFields v else v
          let rows2 := w.db.rows.map fun r => if r.id == i then updatedExerciseRow fin r else r
          if rows2.any (fun r => r.id == i) then
            (Except.ok (), { w with db := { w.db with rows := rows2 } })
          else
            (Except.error DbError.verificationFailed, { w with db := { w.db with rows := rows2 } })

/-- Embeds deleteWOD (lines 643-662): both the existence check and the
DELETE are scoped by the id and the wod discriminator together. -/
def deleteWODM (i : Nat) : DbM Unit := fun w =>
  if !w.db.tableExists then (Except.error DbError.noSuchTable, w)
  else if (w.db.rows.filter fun r => r.id == i && r.type == some "wod").isEmpty then
    (Except.error DbError.recordNotFound, w)
  else (Except.ok (), { w with db := { w.db with
    rows := w.db.rows.filter fun r => !(r.id == i && r.type == some "wod") } })

/-- Embeds deleteExercise (lines 664-683): both the existence check and
the DELETE are scoped by the id and the exercise discriminator. -/
def deleteExerciseM (i : Nat) : DbM Unit := fun w =>
  if !w.db.tableExists then (Except.error DbError.noSuchTable, w)
  else if (w.db.rows.filter fun r => r.id == i && r.type == some "exercise").isEmpty then
    (Except.error DbError.recordNotFound, w)
  else (Except.ok (), { w with db := { w.db with
    rows := w.db.rows.filter fun r => !(r.id == i && r.type == some "exercise") } })

/-! ### Helper lemmas about the schema introspection and the backfill -/

theorem mem_tableColumns_mt (db : DB) :
    "measurement_type" ∈ tableColumns db
      ↔ db.tableExists = true ∧ db.hasMeasurementType = true := by
  rcases db with ⟨te, hm, hd, ht, rs, ni⟩
  cases te <;> cases hm <;> cases hd <;> cases ht <;> simp [tableColumns, requiredColumns]

theorem mem_tableColumns_distance (db : DB) :
    "distance" ∈ tableColumns db ↔ db.tableExists = true ∧ db.hasDistance = true := by
  rcases db with ⟨te, hm, hd, ht, rs, ni⟩
  cases te <;> cases hm <;> cases hd <;> cases ht <;> simp [tableColumns, requiredColumns]

theorem mem_tableColumns_time (db : DB) :
    "time" ∈ tableColumns db ↔ db.tableExists = true ∧ db.hasTime = true := by
  rcases db with ⟨te, hm, hd, ht, rs, ni⟩
  cases te <;> cases hm <;> cases hd <;> cases ht <;> simp [tableColumns, requiredColumns]

theorem tableColumns_eq_nil (db : DB) :
    tableColumns db = [] ↔ db.tableExists = false := by
  rcases db with ⟨te, hm, hd, ht, rs, ni⟩
  cases te <;> cases hm <;> cases hd <;> cases ht <;> simp [tableColumns, requiredColumns]

theorem requiredColumns_subset (db : DB) :
    (∀ c ∈ requiredColumns, c ∈ tableColumns db)
      ↔ db.tableExists = true ∧ db.hasMeasurementType = true := by
  rcases db with ⟨te, hm, hd, ht, rs, ni⟩
  cases te <;> cases hm <;> cases hd <;> cases ht <;>
      simp [tableColumns, requiredColumns] <;>
    exact ⟨"measurement_type", by decide⟩

theorem sqlCaseMT_mem (r : Row) :
    sqlCaseMT r ∈ validMeasurementTypes := by
  unfold sqlCaseMT
  split_ifs <;> decide

theorem invalidExerciseRows_backfillRows (rows : List Row) :
    invalidExerciseRows (backfillRows rows) = [] := by
  unfold invalidExerciseRows backfillRows
  rw [List.filter_eq_nil_iff]
  intro r hr
  rcases List.mem_map.mp hr with ⟨s, _, rfl⟩
  cases h : s.type == some "exercise" <;>
    simp [h, sqlCaseMT_mem]

/-! ### Claim C1: rollback on migration failure -/

/-- An exercise row whose NULL measurement_type makes the validation step
of a migration attempt fail while the schema check itself passes. -/
def c1Row : Row :=
  { id := 1, name := "Squat", date := "2024-01-01", type := some "exercise",
    description := none, result := none, weight := some "50", reps := some "10",
    distance := none, time := none, measurement_type := none, notes := none }

/-- A store on the current schema holding c1Row: the backup succeeds, no
alter is needed, and validation fails. -/
def c1Db : DB :=
  { tableExists := true, hasMeasurementType := true, hasDistance := true,
    hasTime := true, rows := [c1Row], nextId := 2 }

/-- C1. The claim states that after a successful backup a failing later
step triggers a restore that brings the live rows back to the snapshot
and re-raises the original error. On this input the backup succeeds and
validation fails, yet the rollback destroys the store: resetDatabase
deletes the database file, no code recreates the workouts table before
the reinserts, so the restore throws a no-such-table error, the final
state has no table and zero rows instead of the snapshot row, and the
surfaced error is the restore error rather than the original validation
error. The second conjunct confirms the backup-failure half of the
claim: with no table the backup itself fails, the error propagates and
nothing is restored or written. -/
theorem c1_rollback_code_bug :
    migrateDatabaseM false ⟨c1Db, []⟩
        = (Except.error DbError.noSuchTable, ⟨noTableDb, [[c1Row]]⟩) ∧
      noTableDb.rows ≠ [c1Row] ∧
      DbError.noSuchTable ≠ DbError.migrationValidationFailed ∧
      migrateDatabaseM false ⟨noTableDb, []⟩
        = (Except.error DbError.noSuchTable, ⟨noTableDb, []⟩) :=
  ⟨rfl, by decide, by decide, rfl⟩

/-! ### Claim C8: restore semantics -/

/-- A wod row standing for the live contents before a restore attempt. -/
def c8LiveRow : Row :=
  { id := 3, name := "Cindy", date := "2024-02-01", type := some "wod",
    description := some "AMRAP 20", result := some "17 rounds",
    weight := none, reps := none, distance := none, time := none,
    measurement_type := none, notes := none }

/-- A store on the current schema holding c8LiveRow. -/
def c8Db : DB :=
  { tableExists := true, hasMeasurementType := true, hasDistance := true,
    hasTime := true, rows := [c8LiveRow], nextId := 4 }

/-- A backup record to restore. -/
def c8BackupRow : Row :=
  { id := 7, name := "Helen", date := "2024-01-20", type := some "wod",
    description := some "3 rounds", result := some "11:00",
    weight := none, reps := none, distance := none, time := none,
    measurement_type := none, notes := none }

/-- C8. The unreadable-artifact half of the claim holds: the read and the
parse precede any database statement, so the restore aborts with the
live relation untouched (first conjunct). The replacement half fails on
the code: with a readable one-record artifact, resetDatabase deletes the
database file, nothing recreates the workouts table, the first reinsert
throws a no-such-table error and the store ends with no table and zero
rows instead of the backup rows (second conjunct); the backup record was
not reinserted at all (third conjunct). -/
theorem c8_restore_code_bug :
    restoreFromBackupM false none ⟨c8Db, []⟩
        = (Except.error DbError.backupCorrupt, ⟨c8Db, []⟩) ∧
      restoreFromBackupM false (some [c8BackupRow]) ⟨c8Db, []⟩
        = (Except.error DbError.noSuchTable, ⟨noTableDb, []⟩) ∧
      noTableDb.rows ≠ [restoredRow c8BackupRow] :=
  ⟨rfl, rfl, by decide⟩

/-! ### Claim C2: equivalence of the two altering strategies -/

/-- An exercise row with every measurement field NULL. -/
def c2Row : Row :=
  { id := 1, name := "Plank", date := "2024-01-02", type := some "exercise",
    description := none, result := none, weight := none, reps := none,
    distance := none, time := none, measurement_type := none, notes := none }

/-- A pre-migration store: the measurement_type column is missing, the
distance and time columns are present. -/
def c2Db : DB :=
  { tableExists := true, hasMeasurementType := false, hasDistance := true,
    hasTime := true, rows := [c2Row], nextId := 2 }

/-- C2. The two altering strategies disagree on the same pre-migration
store: the incremental ALTER-plus-SQL-backfill path assigns weight_reps
to an all-NULL exercise row (the SQL CASE falls through to its ELSE arm)
while the full-rebuild path assigns reps_only (its JS default), so the
end states are not equivalent. Both runs succeed. -/
theorem c2_strategies_counterexample :
    (migrateDatabaseM false ⟨c2Db, []⟩).1 = Except.ok () ∧
      (initDatabaseM ⟨c2Db, []⟩).1 = Except.ok () ∧
      ((migrateDatabaseM false ⟨c2Db, []⟩).2.db.rows.map fun r => r.measurement_type)
        = [some "weight_reps"] ∧
      ((initDatabaseM ⟨c2Db, []⟩).2.db.rows.map fun r => r.measurement_type)
        = [some "reps_only"] ∧
      (some "weight_reps" : SqlText) ≠ some "reps_only" :=
  ⟨rfl, rfl, rfl, rfl, by decide⟩

/-- C2 amended. On exercise rows in which none of weight, reps, time and
distance is the empty string and reps is non-NULL, the SQL CASE of the
incremental path and the per-row computation of the rebuild path assign
the same measurement type; outside that set the strategies can differ. -/
theorem c2_strategies_agree (r : Row)
    (hw : r.weight ≠ some "") (hr : r.reps ≠ some "")
    (htm : r.time ≠ some "") (hd : r.distance ≠ some "")
    (hrn : r.reps ≠ none) :
    sqlCaseMT r = derivedMT r := by
  unfold sqlCaseMT derivedMT
  rcases hw2 : r.weight with _ | sw <;>
    rcases hr2 : r.reps with _ | sr <;>
      rcases ht2 : r.time with _ | st <;>
        rcases hd2 : r.distance with _ | sd <;>
          simp_all [truthy, Option.isSome]

/-- C2 amended, checked on a concrete row: weight 80, reps 5, time and
distance NULL agree on weight_reps under both strategies. -/
theorem c2_strategies_agree_witness :
    sqlCaseMT { id := 9, name := "Row", date := "2024-03-01", type := some "exercise",
                description := none, result := none, weight := some "80",
                reps := some "5", distance := none, time := none,
                measurement_type := none, notes := none }
      = derivedMT { id := 9, name := "Row", date := "2024-03-01", type := some "exercise",
                    description := none, result := none, weight := some "80",
                    reps := some "5", distance := none, time := none,
                    measurement_type := none, notes := none } :=
  c2_strategies_agree _ (by decide) (by decide) (by decide) (by decide) (by decide)

/-! ### Claim C3: deterministic backfill priority -/

/-- An exercise row with no measurement field populated, under the
rebuild path. -/
def c3Row : Row :=
  { id := 3, name := "Stretch", date := "2024-01-06", type := some "exercise",
    description := none, result := none, weight := none, reps := none,
    distance := none, time := none, measurement_type := none, notes := none }

/-- A pre-migration store holding only c3Row. -/
def c3Db : DB :=
  { tableExists := true, hasMeasurementType := false, hasDistance := true,
    hasTime := true, rows := [c3Row], nextId := 4 }

/-- C3. The claim says a row with none of the measurement fields
populated falls back to weight_reps; under the rebuild migration path
the same row is backfilled to reps_only instead. -/
theorem c3_backfill_counterexample :
    (initDatabaseM ⟨c3Db, []⟩).1 = Except.ok () ∧
      ((initDatabaseM ⟨c3Db, []⟩).2.db.rows.map fun r => r.measurement_type)
        = [some "reps_only"] ∧
      ((initDatabaseM ⟨c3Db, []⟩).2.db.rows.map fun r => r.measurement_type)
        ≠ [some "weight_reps"] :=
  ⟨rfl, rfl, by decide⟩

/-- A row with weight and reps populated. -/
def c3WrRow : Row :=
  { id := 1, name := "Deadlift", date := "2024-01-01", type := some "exercise",
    description := none, result := none, weight := some "50", reps := some "10",
    distance := none, time := none, measurement_type := none, notes := none }

/-- A row with only time populated. -/
def c3ToRow : Row :=
  { id := 2, name := "Hold", date := "2024-01-02", type := some "exercise",
    description := none, result := none, weight := none, reps := none,
    distance := none, time := some "30", measurement_type := none, notes := none }

/-- C3 amended. Under migrateDatabase the backfill is deterministic: on
any store whose schema lacks measurement_type but has distance and time,
the run succeeds and rewrites exactly the exercise rows, each to the SQL
CASE value with priority weight+reps, then distance+time, then time,
then reps, with weight_reps as the ELSE fallback — but the branches test
IS NOT NULL, so empty strings count as populated. The concrete conjuncts
check the three rows named by the claim under this path: weight 50 and
reps 10 give weight_reps, only time 30 gives time_only, and an all-NULL
row takes the weight_reps fallback (the rebuild path disagrees on the
last one, defaulting to reps_only). -/
theorem c3_sql_backfill (db : DB) (bs : List (List Row)) (isWeb : Bool)
    (ht : db.tableExists = true) (hd : db.hasDistance = true)
    (hti : db.hasTime = true) (hm : db.hasMeasurementType = false) :
    migrateDatabaseM isWeb ⟨db, bs⟩
        = (Except.ok (), ⟨{ db with
                            hasMeasurementType := true,
                            rows := backfillRows db.rows }, bs ++ [db.rows]⟩) ∧
      sqlCaseMT c3WrRow = "weight_reps" ∧
      sqlCaseMT c3ToRow = "time_only" ∧
      sqlCaseMT c3Row = "weight_reps" := by
  refine ⟨?_, rfl, rfl, rfl⟩
  simp [migrateDatabaseM, bindM, backupDatabaseM, getRows, tryCatchM, migrateBodyM,
    createTableIfNotExistsM, tableInfoM, alterAddMeasurementTypeM, backfillM,
    validateMigrationM, retM, throwM, ht, hd, hti, hm, tableColumns_eq_nil,
    mem_tableColumns_mt, requiredColumns_subset, invalidExerciseRows_backfillRows]

/-- C3 amended, checked on the concrete pre-migration store c2Db. -/
theorem c3_sql_backfill_witness :
    migrateDatabaseM false ⟨c2Db, []⟩
        = (Except.ok (), ⟨{ c2Db with
                            hasMeasurementType := true,
                            rows := backfillRows c2Db.rows }, [] ++ [c2Db.rows]⟩) ∧
      sqlCaseMT c3WrRow = "weight_reps" ∧
      sqlCaseMT c3ToRow = "time_only" ∧
      sqlCaseMT c3Row = "weight_reps" :=
  c3_sql_backfill c2Db [] false rfl rfl rfl rfl

/-! ### Claim C4: migration idempotence -/

/-- An already-migrated exercise row. -/
def c4Row : Row :=
  { id := 1, name := "Bench", date := "2024-01-03", type := some "exercise",
    description := none, result := none, weight := some "80", reps := some "5",
    distance := none, time := none, measurement_type := some "weight_reps",
    notes := none }

/-- An already-migrated store: full schema, every exercise row valid. -/
def c4Db : DB :=
  { tableExists := true, hasMeasurementType := true, hasDistance := true,
    hasTime := true, rows := [c4Row], nextId := 2 }

/-- C4. The claim says the second of two successive migration runs on an
already-migrated store performs neither an alter nor a backup snapshot.
For migrateDatabase this fails: the backup is taken before the schema
check on every run, so after two runs two backup artifacts exist, even
though both runs succeed and the database itself is unchanged. -/
theorem c4_idempotence_counterexample :
    (migrateDatabaseM false (migrateDatabaseM false ⟨c4Db, []⟩).2).1 = Except.ok () ∧
      (migrateDatabaseM false (migrateDatabaseM false ⟨c4Db, []⟩).2).2.db = c4Db ∧
      (migrateDatabaseM false (migrateDatabaseM false ⟨c4Db, []⟩).2).2.backups.length = 2 ∧
      (2 : Nat) ≠ 1 :=
  ⟨rfl, rfl, rfl, by decide⟩

/-- C4 amended. On an already-migrated store (full schema, every exercise
row carrying a valid measurement type) the startup rebuild path is a
complete no-op — it neither alters, nor backs up, nor touches any state,
so a second run is one too — while migrateDatabase leaves the database
unchanged and performs no alter but appends one backup artifact on every
run, the second included. -/
theorem c4_migrated_noop (db : DB) (bs : List (List Row)) (isWeb : Bool)
    (ht : db.tableExists = true) (hm : db.hasMeasurementType = true)
    (hd : db.hasDistance = true) (hti : db.hasTime = true)
    (hv : invalidExerciseRows db.rows = []) :
    initDatabaseM ⟨db, bs⟩ = (Except.ok (), ⟨db, bs⟩) ∧
      migrateDatabaseM isWeb ⟨db, bs⟩ = (Except.ok (), ⟨db, bs ++ [db.rows]⟩) := by
  constructor
  · simp [initDatabaseM, bindM, tableInfoM, retM, mem_tableColumns_mt,
      mem_tableColumns_distance, mem_tableColumns_time, ht, hm, hd, hti]
  · simp [migrateDatabaseM, bindM, backupDatabaseM, getRows, tryCatchM, migrateBodyM,
      createTableIfNotExistsM, tableInfoM, validateMigrationM, retM, throwM,
      ht, hm, hd, hti, hv, tableColumns_eq_nil, mem_tableColumns_mt,
      requiredColumns_subset]

/-- C4 amended, checked on the concrete already-migrated store c4Db. -/
theorem c4_migrated_noop_witness :
    initDatabaseM ⟨c4Db, []⟩ = (Except.ok (), ⟨c4Db, []⟩) ∧
      migrateDatabaseM false ⟨c4Db, []⟩ = (Except.ok (), ⟨c4Db, [] ++ [c4Db.rows]⟩) :=
  c4_migrated_noop c4Db [] false rfl rfl rfl rfl rfl

/-! ### Helper lemmas about id-preserving row updates -/

theorem map_id_map_update (g : Row → Row) (hg : ∀ r, (g r).id = r.id)
    (rows : List Row) (i : Nat) :
    ((rows.map fun r => if r.id == i then g r else r).map fun r => r.id)
      = rows.map fun r => r.id := by
  rw [List.map_map]
  refine List.map_congr_left ?_
  intro a _
  by_cases h : (a.id == i) = true
  · simp only [Function.comp_apply, if_pos h, hg]
  · simp only [Function.comp_apply, if_neg h]

theorem any_map_update (g : Row → Row) (hg : ∀ r, (g r).id = r.id)
    (rows : List Row) (i : Nat) :
    ((rows.map fun r => if r.id == i then g r else r).any fun r => r.id == i)
      = (rows.any fun r => r.id == i) := by
  induction rows with
  | nil => rfl
  | cons r rs ih =>
    simp only [List.map_cons, List.any_cons]
    by_cases h : (r.id == i) = true
    · rw [if_pos h, hg, h, Bool.true_or, Bool.true_or]
    · have h2 : (r.id == i) = false := by simpa using h
      rw [if_neg h, h2, Bool.false_or, Bool.false_or]
      exact ih

theorem updatedWodRow_id (v : WODData) (r : Row) : (updatedWodRow v r).id = r.id := rfl

theorem updatedExerciseRow_id (v : ExerciseData) (r : Row) :
    (updatedExerciseRow v r).id = r.id := rfl

/-! ### Claim C5: measurement-kind field clearing on update -/

/-- A stored exercise row whose measurement kind is time_only but which
still carries a stale weight value. -/
def c5Row : Row :=
  { id := 1, name := "Run", date := "2024-01-04", type := some "exercise",
    description := none, result := none, weight := some "100", reps := none,
    distance := none, time := some "30", measurement_type := some "time_only",
    notes := none }

/-- A store on the current schema holding c5Row. -/
def c5Db : DB :=
  { tableExists := true, hasMeasurementType := true, hasDistance := true,
    hasTime := true, rows := [c5Row], nextId := 2 }

/-- An update that submits the same measurement kind the row already has,
together with a weight value that is meaningless for time_only. -/
def c5Data : ExerciseData :=
  { id := some 1, name := "Run", date := "2024-01-04",
    measurement_type := "time_only", weight := some "100", reps := none,
    distance := none, time := some "90", notes := none }

/-- C5. The claim says fields not meaningful to the submitted measurement
kind are cleared on every update, not only when the kind differs from
the stored one. On this input the submitted kind equals the stored kind,
the update succeeds, and the weight column keeps the submitted stale
value instead of being cleared. -/
theorem c5_clearing_counterexample :
    (updateExerciseM c5Data ⟨c5Db, []⟩).1 = Except.ok () ∧
      ((updateExerciseM c5Data ⟨c5Db, []⟩).2.db.rows.map fun r => r.weight)
        = [some "100"] ∧
      (some "100" : SqlText) ≠ some "" :=
  ⟨rfl, rfl, by decide⟩

/-- C5 amended. The clearing is conditional: when the submitted
measurement kind differs from the current kind of the stored row (its
stored measurement_type, or the kind derived from the populated fields
when the stored one is missing or empty), the update succeeds and every
field not meaningful to the submitted kind is stored cleared; when the
kinds coincide the submitted values are stored as given. -/
theorem c5_clear_on_kind_change (db : DB) (bs : List (List Row))
    (v : ExerciseData) (i : Nat) (r0 : Row)
    (hvi : v.id = some i) (hi : i ≠ 0) (ht : db.tableExists = true)
    (hm : db.hasMeasurementType = true) (hd : db.hasDistance = true)
    (hti : db.hasTime = true)
    (hfind : db.rows.find? (fun r => r.id == i) = some r0)
    (hchange : currentMT r0 ≠ v.measurement_type) :
    (updateExerciseM v ⟨db, bs⟩).1 = Except.ok () ∧
      ∀ r2 ∈ (updateExerciseM v ⟨db, bs⟩).2.db.rows, r2.id = i →
        (v.measurement_type = "time_only" →
          r2.weight = some "" ∧ r2.reps = some "" ∧ r2.distance = some "" ∧
            r2.time = some (jsOr v.time "")) ∧
        (v.measurement_type = "reps_only" →
          r2.weight = some "" ∧ r2.distance = some "" ∧ r2.time = some "" ∧
            r2.reps = some (jsOr v.reps "")) ∧
        (v.measurement_type = "distance_time" →
          r2.weight = some "" ∧ r2.reps = some "") ∧
        (v.measurement_type = "weight_reps" →
          r2.distance = some "" ∧ r2.time = some "") := by
  have hr0 : (r0.id == i) = true := by
    have h2 := List.find?_some hfind
    simpa using h2
  have hid : r0.id = i := by simpa using hr0
  have heq : updateExerciseM v ⟨db, bs⟩
      = (Except.ok (), ⟨{ db with rows := db.rows.map fun r =>
          if r.id == i then updatedExerciseRow (clearFields v) r else r }, bs⟩) := by
    simp [updateExerciseM, hvi, hi, ht, hm, hd, hti, hfind, hchange]
    exact ⟨r0, List.mem_of_find?_eq_some hfind, by rw [if_pos hid]; exact hid⟩
  rw [heq]
  refine ⟨rfl, ?_⟩
  intro r2 hr2 hid
  rcases List.mem_map.mp hr2 with ⟨r, hr, hrr⟩
  by_cases hc : (r.id == i) = true
  · rw [if_pos hc] at hrr
    subst hrr
    refine ⟨?_, ?_, ?_, ?_⟩ <;> intro hk <;>
      simp [updatedExerciseRow, clearFields, hk, jsOr]
  · rw [if_neg hc] at hrr
    subst hrr
    exact absurd (by simp [hid]) hc

/-- C5 amended, checked concretely: the stored row has kind weight_reps
with weight 100 and reps 5, the update submits time_only with time 90,
and the stored result has weight, reps and distance cleared and time
90. -/
theorem c5_clear_on_kind_change_witness :
    (updateExerciseM
        { id := some 1, name := "Lift", date := "2024-01-04",
          measurement_type := "time_only", weight := none, reps := none,
          distance := none, time := some "90", notes := none }
        ⟨{ tableExists := true, hasMeasurementType := true, hasDistance := true,
           hasTime := true,
           rows := [{ id := 1, name := "Lift", date := "2024-01-04",
                      type := some "exercise", description := none, result := none,
                      weight := some "100", reps := some "5", distance := none,
                      time := none, measurement_type := some "weight_reps",
                      notes := none }],
           nextId := 2 }, []⟩).1 = Except.ok () ∧
      ∀ r2 ∈ (updateExerciseM
        { id := some 1, name := "Lift", date := "2024-01-04",
          measurement_type := "time_only", weight := none, reps := none,
          distance := none, time := some "90", notes := none }
        ⟨{ tableExists := true, hasMeasurementType := true, hasDistance := true,
           hasTime := true,
           rows := [{ id := 1, name := "Lift", date := "2024-01-04",
                      type := some "exercise", description := none, result := none,
                      weight := some "100", reps := some "5", distance := none,
                      time := none, measurement_type := some "weight_reps",
                      notes := none }],
           nextId := 2 }, []⟩).2.db.rows, r2.id = 1 →
        ("time_only" = "time_only" →
          r2.weight = some "" ∧ r2.reps = some "" ∧ r2.distance = some "" ∧
            r2.time = some (jsOr (some "90") "")) ∧
        ("time_only" = "reps_only" →
          r2.weight = some "" ∧ r2.distance = some "" ∧ r2.time = some "" ∧
            r2.reps = some (jsOr none "")) ∧
        ("time_only" = "distance_time" →
          r2.weight = some "" ∧ r2.reps = some "") ∧
        ("time_only" = "weight_reps" →
          r2.distance = some "" ∧ r2.time = some "") :=
  c5_clear_on_kind_change _ [] _ 1 _ rfl (by decide) rfl rfl rfl rfl rfl (by decide)

/-! ### Claim C6: update preserves identity -/

/-- A stored exercise row with id 1. -/
def c6Row : Row :=
  { id := 1, name := "Press", date := "2024-01-07", type := some "exercise",
    description := none, result := none, weight := some "40", reps := some "8",
    distance := none, time := none, measurement_type := some "weight_reps",
    notes := none }

/-- A store on the current schema holding c6Row. -/
def c6Db : DB :=
  { tableExists := true, hasMeasurementType := true, hasDistance := true,
    hasTime := true, rows := [c6Row], nextId := 2 }

/-- A wod update aimed at id 1, which is stored as an exercise. -/
def c6Wod : WODData :=
  { id := some 1, name := "Fran", date := "2024-01-08",
    description := some "21-15-9", result := some "4:32", notes := none }

/-- C6. The claim says an update can never convert an exercise row into a
WOD row. Aiming updateWOD at an id stored as an exercise succeeds — the
existence check matches by id only — and rewrites the discriminator of
that row to wod, converting the record between variants. -/
theorem c6_kind_counterexample :
    (updateWODM c6Wod ⟨c6Db, []⟩).1 = Except.ok () ∧
      (c6Db.rows.map fun r => r.type) = [some "exercise"] ∧
      ((updateWODM c6Wod ⟨c6Db, []⟩).2.db.rows.map fun r => r.type) = [some "wod"] ∧
      (some "wod" : SqlText) ≠ some "exercise" :=
  ⟨rfl, rfl, rfl, by decide⟩

/-- C6 amended. Successful updates never change any row id, but the
existence checks of updateWOD and updateExercise match by id only — a
row of any kind satisfies them — and the UPDATE statements force the
discriminator of every row carrying the target id to the variant of the
operation, so an update aimed at the other variant converts the row. -/
theorem c6_update_preserves_id (db : DB) (bs : List (List Row))
    (v : WODData) (e : ExerciseData) (i j : Nat) (r0 : Row)
    (hvi : v.id = some i) (hi : i ≠ 0)
    (hei : e.id = some j) (hj : j ≠ 0)
    (ht : db.tableExists = true) (hm : db.hasMeasurementType = true)
    (hd : db.hasDistance = true) (hti : db.hasTime = true)
    (hex : (db.rows.any fun r => r.id == i) = true)
    (hfind : db.rows.find? (fun r => r.id == j) = some r0) :
    (updateWODM v ⟨db, bs⟩).1 = Except.ok () ∧
      ((updateWODM v ⟨db, bs⟩).2.db.rows.map fun r => r.id)
        = (db.rows.map fun r => r.id) ∧
      (∀ r2 ∈ (updateWODM v ⟨db, bs⟩).2.db.rows, r2.id = i → r2.type = some "wod") ∧
      (updateExerciseM e ⟨db, bs⟩).1 = Except.ok () ∧
      ((updateExerciseM e ⟨db, bs⟩).2.db.rows.map fun r => r.id)
        = (db.rows.map fun r => r.id) ∧
      (∀ r2 ∈ (updateExerciseM e ⟨db, bs⟩).2.db.rows, r2.id = j →
        r2.type = some "exercise") := by
  obtain ⟨x, hx, hxi⟩ := List.any_eq_true.mp hex
  have hxid : x.id = i := by simpa using hxi
  have heqW : updateWODM v ⟨db, bs⟩
      = (Except.ok (), ⟨{ db with rows := db.rows.map fun r =>
          if r.id == i then updatedWodRow v r else r }, bs⟩) := by
    simp [updateWODM, hvi, hi, ht, hex]
    exact ⟨x, hx, by rw [if_pos hxid]; exact hxid⟩
  have hjid : r0.id = j := by simpa using List.find?_some hfind
  have heqE : updateExerciseM e ⟨db, bs⟩
      = (Except.ok (), ⟨{ db with rows := db.rows.map fun r =>
          if r.id == j then updatedExerciseRow (if currentMT r0 != e.measurement_type then clearFields e else e) r else r }, bs⟩) := by
    simp [updateExerciseM, hei, hj, ht, hm, hd, hti, hfind]
    exact ⟨r0, List.mem_of_find?_eq_some hfind, by rw [if_pos hjid]; exact hjid⟩
  rw [heqW, heqE]
  refine ⟨rfl, ?_, ?_, rfl, ?_, ?_⟩
  · exact map_id_map_update _ (updatedWodRow_id v) db.rows i
  · intro r2 hr2 hid2
    rcases List.mem_map.mp hr2 with ⟨r, hr, hrr⟩
    by_cases hc : (r.id == i) = true
    · rw [if_pos hc] at hrr
      subst hrr
      rfl
    · rw [if_neg hc] at hrr
      subst hrr
      exact absurd (by simp [hid2]) hc
  · exact map_id_map_update _ (updatedExerciseRow_id _) db.rows j
  · intro r2 hr2 hid2
    rcases List.mem_map.mp hr2 with ⟨r, hr, hrr⟩
    by_cases hc : (r.id == j) = true
    · rw [if_pos hc] at hrr
      subst hrr
      rfl
    · rw [if_neg hc] at hrr
      subst hrr
      exact absurd (by simp [hid2]) hc

/-- A second store for checking the amended C6: an exercise with id 1 and
a wod with id 2. -/
def c6Db2 : DB :=
  { tableExists := true, hasMeasurementType := true, hasDistance := true,
    hasTime := true,
    rows := [c6Row,
             { id := 2, name := "Murph", date := "2024-01-09", type := some "wod",
               description := some "for time", result := some "40:00",
               weight := none, reps := none, distance := none, time := none,
               measurement_type := none, notes := none }],
    nextId := 3 }

/-- C6 amended, checked concretely on c6Db2: the wod update aims at the
exercise id 1 and the exercise update aims at the wod id 2. -/
theorem c6_update_preserves_id_witness :
    (updateWODM c6Wod ⟨c6Db2, []⟩).1 = Except.ok () ∧
      ((updateWODM c6Wod ⟨c6Db2, []⟩).2.db.rows.map fun r => r.id)
        = (c6Db2.rows.map fun r => r.id) ∧
      (∀ r2 ∈ (updateWODM c6Wod ⟨c6Db2, []⟩).2.db.rows, r2.id = 1 →
        r2.type = some "wod") ∧
      (updateExerciseM
          { id := some 2, name := "Carry", date := "2024-01-10",
            measurement_type := "distance_time", weight := none, reps := none,
            distance := some "400", time := some "120", notes := none }
          ⟨c6Db2, []⟩).1 = Except.ok () ∧
      ((updateExerciseM
          { id := some 2, name := "Carry", date := "2024-01-10",
            measurement_type := "distance_time", weight := none, reps := none,
            distance := some "400", time := some "120", notes := none }
          ⟨c6Db2, []⟩).2.db.rows.map fun r => r.id)
        = (c6Db2.rows.map fun r => r.id) ∧
      (∀ r2 ∈ (updateExerciseM
          { id := some 2, name := "Carry", date := "2024-01-10",
            measurement_type := "distance_time", weight := none, reps := none,
            distance := some "400", time := some "120", notes := none }
          ⟨c6Db2, []⟩).2.db.rows, r2.id = 2 → r2.type = some "exercise") :=
  c6_update_preserves_id c6Db2 [] c6Wod _ 1 2 _ rfl (by decide) rfl (by decide)
    rfl rfl rfl rfl rfl rfl

/-! ### Claim C7: delete variant isolation -/

/-- C7. Both delete variants are scoped by id and kind together: when no
row carries both the given id and the matching kind, the operation fails
with the record-not-found error and the whole world is unchanged; when
such a row exists, the operation succeeds, removes exactly the rows
carrying that id and kind, and every other row — a row of the other
kind with the same id included — survives. -/
theorem c7_delete_scoped (db : DB) (bs : List (List Row)) (i : Nat)
    (ht : db.tableExists = true) :
    ((db.rows.filter fun r => r.id == i && r.type == some "wod").isEmpty = true →
        deleteWODM i ⟨db, bs⟩ = (Except.error DbError.recordNotFound, ⟨db, bs⟩)) ∧
      ((db.rows.filter fun r => r.id == i && r.type == some "wod").isEmpty = false →
        deleteWODM i ⟨db, bs⟩
            = (Except.ok (), ⟨{ db with rows := db.rows.filter fun r =>
                !(r.id == i && r.type == some "wod") }, bs⟩) ∧
          ∀ r ∈ db.rows, ¬(r.id = i ∧ r.type = some "wod") →
            r ∈ (deleteWODM i ⟨db, bs⟩).2.db.rows) ∧
      ((db.rows.filter fun r => r.id == i && r.type == some "exercise").isEmpty = true →
        deleteExerciseM i ⟨db, bs⟩ = (Except.error DbError.recordNotFound, ⟨db, bs⟩)) ∧
      ((db.rows.filter fun r => r.id == i && r.type == some "exercise").isEmpty = false →
        deleteExerciseM i ⟨db, bs⟩
            = (Except.ok (), ⟨{ db with rows := db.rows.filter fun r =>
                !(r.id == i && r.type == some "exercise") }, bs⟩) ∧
          ∀ r ∈ db.rows, ¬(r.id = i ∧ r.type = some "exercise") →
            r ∈ (deleteExerciseM i ⟨db, bs⟩).2.db.rows) := by
  refine ⟨?_, ?_, ?_, ?_⟩
  · intro hemp
    simp [deleteWODM, ht, hemp]
  · intro hne
    have heq : deleteWODM i ⟨db, bs⟩
        = (Except.ok (), ⟨{ db with rows := db.rows.filter fun r =>
            !(r.id == i && r.type == some "wod") }, bs⟩) := by
      simp [deleteWODM, ht, hne]
    refine ⟨heq, ?_⟩
    intro r hr hnot
    rw [heq]
    refine List.mem_filter.mpr ⟨hr, ?_⟩
    by_cases h1 : r.id = i
    · have h2 : r.type ≠ some "wod" := fun h => hnot ⟨h1, h⟩
      simp [h1, h2]
    · simp [h1]
  · intro hemp
    simp [deleteExerciseM, ht, hemp]
  · intro hne
    have heq : deleteExerciseM i ⟨db, bs⟩
        = (Except.ok (), ⟨{ db with rows := db.rows.filter fun r =>
            !(r.id == i && r.type == some "exercise") }, bs⟩) := by
      simp [deleteExerciseM, ht, hne]
    refine ⟨heq, ?_⟩
    intro r hr hnot
    rw [heq]
    refine List.mem_filter.mpr ⟨hr, ?_⟩
    by_cases h1 : r.id = i
    · have h2 : r.type ≠ some "exercise" := fun h => hnot ⟨h1, h⟩
      simp [h1, h2]
    · simp [h1]

/-- A store holding a wod and an exercise that share the numeric id 1. -/
def c7Db : DB :=
  { tableExists := true, hasMeasurementType := true, hasDistance := true,
    hasTime := true,
    rows := [{ id := 1, name := "Grace", date := "2024-01-11", type := some "wod",
               description := some "30 clean and jerks", result := some "3:20",
               weight := none, reps := none, distance := none, time := none,
               measurement_type := none, notes := none },
             { id := 1, name := "Clean", date := "2024-01-11", type := some "exercise",
               description := none, result := none, weight := some "60",
               reps := some "3", distance := none, time := none,
               measurement_type := some "weight_reps", notes := none }],
    nextId := 2 }

/-- C7, checked on the concrete store c7Db in which a wod and an exercise
share id 1. -/
theorem c7_delete_scoped_witness :
    ((c7Db.rows.filter fun r => r.id == 1 && r.type == some "wod").isEmpty = true →
        deleteWODM 1 ⟨c7Db, []⟩ = (Except.error DbError.recordNotFound, ⟨c7Db, []⟩)) ∧
      ((c7Db.rows.filter fun r => r.id == 1 && r.type == some "wod").isEmpty = false →
        deleteWODM 1 ⟨c7Db, []⟩
            = (Except.ok (), ⟨{ c7Db with rows := c7Db.rows.filter fun r =>
                !(r.id == 1 && r.type == some "wod") }, []⟩) ∧
          ∀ r ∈ c7Db.rows, ¬(r.id = 1 ∧ r.type = some "wod") →
            r ∈ (deleteWODM 1 ⟨c7Db, []⟩).2.db.rows) ∧
      ((c7Db.rows.filter fun r => r.id == 1 && r.type == some "exercise").isEmpty = true →
        deleteExerciseM 1 ⟨c7Db, []⟩ = (Except.error DbError.recordNotFound, ⟨c7Db, []⟩)) ∧
      ((c7Db.rows.filter fun r => r.id == 1 && r.type == some "exercise").isEmpty = false →
        deleteExerciseM 1 ⟨c7Db, []⟩
            = (Except.ok (), ⟨{ c7Db with rows := c7Db.rows.filter fun r =>
                !(r.id == 1 && r.type == some "exercise") }, []⟩) ∧
          ∀ r ∈ c7Db.rows, ¬(r.id = 1 ∧ r.type = some "exercise") →
            r ∈ (deleteExerciseM 1 ⟨c7Db, []⟩).2.db.rows) :=
  c7_delete_scoped c7Db [] 1 rfl

/-! ### Claim C9: round trip through add and listAll -/

/-- The date carried by a returned record. -/
def logDate : WorkoutLog → String
  | WorkoutLog.exercise e => e.date
  | WorkoutLog.wod v => v.date

/-- The wod record the read path reports for a wod input stored under the
assigned id: the optional fields coalesce to empty strings, per the data
model in which optional text defaults to empty. -/
def wodOutOf (v : WODNew) (i : Nat) : WODOut :=
  { id := i, name := v.name, date := v.date, description := jsOr v.description "",
    result := jsOr v.result "", notes := some (jsOr v.notes "") }

/-- The exercise record the read path reports for an exercise input
stored under the assigned id. -/
def exerciseOutOf (v : ExerciseNew) (i : Nat) : ExerciseOut :=
  { id := i, name := v.name, date := v.date,
    measurement_type := v.measurement_type, weight := jsOr v.weight "",
    reps := jsOr v.reps "", distance := jsOr v.distance "",
    time := jsOr v.time "", notes := some (jsOr v.notes "") }

theorem jsOr_some_jsOr (x : SqlText) : jsOr (some (jsOr x "")) "" = jsOr x "" := by
  cases x with
  | none => rfl
  | some s => by_cases h : s = "" <;> simp [jsOr, h]

theorem logDate_mapRowToLog (r : Row) : logDate (mapRowToLog r) = r.date := by
  unfold mapRowToLog
  split <;> rfl

theorem mapRowToLog_newWodRow (v : WODNew) (i : Nat) :
    mapRowToLog (newWodRow v i) = WorkoutLog.wod (wodOutOf v i) := by
  simp [mapRowToLog, rowTag, newWodRow, wodOutOf, jsOr_some_jsOr]

theorem mapRowToLog_newExerciseRow (db : DB) (v : ExerciseNew)
    (hcol : columnExists db "measurement_type" = true)
    (hne : v.measurement_type ≠ "") :
    mapRowToLog (newExerciseRow db v)
      = WorkoutLog.exercise (exerciseOutOf v db.nextId) := by
  simp [mapRowToLog, rowTag, newExerciseRow, exerciseOutOf, hcol, jsOr_some_jsOr,
    jsOr, hne]
  exact ⟨fun h => h.symm, fun h => h.symm, fun h => h.symm, fun h => h.symm⟩

/-- The returned list is sorted by date descending. -/
theorem getAllLogs_map_sorted (rows : List Row) :
    List.Sorted (fun a b => logDate b ≤ logDate a)
      ((rows.insertionSort dateDesc).map mapRowToLog) := by
  refine List.Pairwise.map mapRowToLog ?_ (List.sorted_insertionSort dateDesc rows)
  intro a b hab
  rw [logDate_mapRowToLog, logDate_mapRowToLog]
  exact hab

/-- C9. Adding a wod and then listing yields, on a store with the current
schema, a successful add, a successful list whose length is the old row
count plus one, the new record — equal to the input up to the assigned
id and the empty-string defaulting of its optional fields — tagged with
its variant, every previously stored record still mapped into the
output with no filtering, and the whole output ordered newest date
first; and the same for adding an exercise. -/
theorem c9_roundtrip (db : DB) (bs : List (List Row)) (v : WODNew)
    (e : ExerciseNew)
    (ht : db.tableExists = true) (hm : db.hasMeasurementType = true)
    (hd : db.hasDistance = true) (hti : db.hasTime = true)
    (hmv : e.measurement_type ∈ validMeasurementTypes) :
    (addWODM v ⟨db, bs⟩).1 = Except.ok () ∧
      (∃ logs, (getAllLogsM (addWODM v ⟨db, bs⟩).2).1 = Except.ok logs ∧
        WorkoutLog.wod (wodOutOf v db.nextId) ∈ logs ∧
        logs.length = db.rows.length + 1 ∧
        (∀ r ∈ db.rows, mapRowToLog r ∈ logs) ∧
        List.Sorted (fun a b => logDate b ≤ logDate a) logs) ∧
      (addExerciseM e ⟨db, bs⟩).1 = Except.ok () ∧
      (∃ logs, (getAllLogsM (addExerciseM e ⟨db, bs⟩).2).1 = Except.ok logs ∧
        WorkoutLog.exercise (exerciseOutOf e db.nextId) ∈ logs ∧
        logs.length = db.rows.length + 1 ∧
        (∀ r ∈ db.rows, mapRowToLog r ∈ logs) ∧
        List.Sorted (fun a b => logDate b ≤ logDate a) logs) := by
  have hne : e.measurement_type ≠ "" := by
    intro h
    rw [h] at hmv
    exact absurd hmv (by decide)
  have hcol : columnExists db "measurement_type" = true := by
    have hmem := (mem_tableColumns_mt db).mpr ⟨ht, hm⟩
    simpa [columnExists] using List.elem_eq_true_of_mem hmem
  have heqA : addWODM v ⟨db, bs⟩
      = (Except.ok (), ⟨{ db with
                          rows := db.rows ++ [newWodRow v db.nextId],
                          nextId := db.nextId + 1 }, bs⟩) := by
    simp [addWODM, ht]
  have heqB : addExerciseM e ⟨db, bs⟩
      = (Except.ok (), ⟨{ db with
                          rows := db.rows ++ [newExerciseRow db e],
                          nextId := db.nextId + 1 }, bs⟩) := by
    simp [addExerciseM, ht, hd, hti]
  rw [heqA, heqB]
  refine ⟨rfl, ?_, rfl, ?_⟩
  · refine ⟨((db.rows ++ [newWodRow v db.nextId]).insertionSort dateDesc).map mapRowToLog,
      by simp [getAllLogsM, bindM, getRows, retM, ht], ?_, ?_, ?_, ?_⟩
    · rw [← mapRowToLog_newWodRow v db.nextId]
      exact List.mem_map_of_mem _ ((List.mem_insertionSort dateDesc).mpr (by simp))
    · simp [List.length_insertionSort]
    · intro r hr
      exact List.mem_map_of_mem _
        ((List.mem_insertionSort dateDesc).mpr (List.mem_append.mpr (Or.inl hr)))
    · exact getAllLogs_map_sorted _
  · refine ⟨((db.rows ++ [newExerciseRow db e]).insertionSort dateDesc).map mapRowToLog,
      by simp [getAllLogsM, bindM, getRows, retM, ht], ?_, ?_, ?_, ?_⟩
    · rw [← mapRowToLog_newExerciseRow db e hcol hne]
      exact List.mem_map_of_mem _ ((List.mem_insertionSort dateDesc).mpr (by simp))
    · simp [List.length_insertionSort]
    · intro r hr
      exact List.mem_map_of_mem _
        ((List.mem_insertionSort dateDesc).mpr (List.mem_append.mpr (Or.inl hr)))
    · exact getAllLogs_map_sorted _

/-- A concrete wod input for checking C9. -/
def c9Wod : WODNew :=
  { name := "Fran", date := "2024-01-01", description := some "21-15-9 thrusters",
    result := some "4:32", notes := none }

/-- A concrete exercise input for checking C9. -/
def c9Ex : ExerciseNew :=
  { name := "Back Squat", date := "2024-01-02", measurement_type := "weight_reps",
    weight := some "100", reps := some "5", distance := none, time := none,
    notes := none }

/-- C9, checked on the empty store with the current schema. -/
theorem c9_roundtrip_witness :
    (addWODM c9Wod ⟨freshFullDb, []⟩).1 = Except.ok () ∧
      (∃ logs, (getAllLogsM (addWODM c9Wod ⟨freshFullDb, []⟩).2).1 = Except.ok logs ∧
        WorkoutLog.wod (wodOutOf c9Wod freshFullDb.nextId) ∈ logs ∧
        logs.length = freshFullDb.rows.length + 1 ∧
        (∀ r ∈ freshFullDb.rows, mapRowToLog r ∈ logs) ∧
        List.Sorted (fun a b => logDate b ≤ logDate a) logs) ∧
      (addExerciseM c9Ex ⟨freshFullDb, []⟩).1 = Except.ok () ∧
      (∃ logs, (getAllLogsM (addExerciseM c9Ex ⟨freshFullDb, []⟩).2).1 = Except.ok logs ∧
        WorkoutLog.exercise (exerciseOutOf c9Ex freshFullDb.nextId) ∈ logs ∧
        logs.length = freshFullDb.rows.length + 1 ∧
        (∀ r ∈ freshFullDb.rows, mapRowToLog r ∈ logs) ∧
        List.Sorted (fun a b => logDate b ≤ logDate a) logs) :=
  c9_roundtrip freshFullDb [] c9Wod c9Ex rfl rfl rfl rfl (by decide)

/-! ### Claim C10: kind inference and measurement-kind defaulting -/

/-- C10. For a row whose stored discriminator is NULL the read path
infers the kind from the description: the row is returned tagged wod
exactly when the description is non-NULL and non-empty, and tagged
exercise otherwise; and any row taking the exercise branch whose stored
measurement_type is NULL is reported as weight_reps. The first conjunct
places the mapped record in the getAllLogs output of any store holding
the row. -/
theorem c10_kind_inference (db : DB) (bs : List (List Row)) (r : Row)
    (ht : db.tableExists = true) (hr : r ∈ db.rows) (hty : r.type = none) :
    (∃ logs, (getAllLogsM ⟨db, bs⟩).1 = Except.ok logs ∧ mapRowToLog r ∈ logs) ∧
      ((r.description ≠ none ∧ r.description ≠ some "") →
        ∃ v, mapRowToLog r = WorkoutLog.wod v) ∧
      (¬(r.description ≠ none ∧ r.description ≠ some "") →
        ∃ e2, mapRowToLog r = WorkoutLog.exercise e2 ∧
          (r.measurement_type = none → e2.measurement_type = "weight_reps")) ∧
      (∀ r2 : Row, r2.type = some "exercise" → r2.measurement_type = none →
        ∃ e2, mapRowToLog r2 = WorkoutLog.exercise e2 ∧
          e2.measurement_type = "weight_reps") := by
  refine ⟨?_, ?_, ?_, ?_⟩
  · refine ⟨(db.rows.insertionSort dateDesc).map mapRowToLog,
      by simp [getAllLogsM, bindM, getRows, retM, ht], ?_⟩
    exact List.mem_map_of_mem _ ((List.mem_insertionSort dateDesc).mpr hr)
  · intro hdesc
    have htr : truthy r.description = true := by
      rcases hd2 : r.description with _ | s
      · exact absurd hd2 hdesc.1
      · rw [hd2] at hdesc
        have hs : s ≠ "" := by
          intro h
          rw [h] at hdesc
          exact hdesc.2 rfl
        simp [truthy, hs]
    have htag : rowTag r = "wod" := by simp [rowTag, hty, htr]
    refine ⟨{ id := r.id, name := r.name, date := r.date,
              description := jsOr r.description "", result := jsOr r.result "",
              notes := r.notes }, ?_⟩
    simp [mapRowToLog, htag]
  · intro hdesc
    have htr : truthy r.description = false := by
      rcases hd2 : r.description with _ | s
      · rfl
      · rw [hd2] at hdesc
        have hs : s = "" := by
          by_contra h
          exact hdesc ⟨by simp, by simpa using h⟩
        simp [truthy, hs]
    have htag : rowTag r = "exercise" := by simp [rowTag, hty, htr]
    refine ⟨{ id := r.id, name := r.name, date := r.date,
              measurement_type := jsOr r.measurement_type "weight_reps",
              weight := jsOr r.weight "", reps := jsOr r.reps "",
              distance := jsOr r.distance "", time := jsOr r.time "",
              notes := r.notes }, ?_, ?_⟩
    · simp [mapRowToLog, htag]
    · intro hmt
      simp [jsOr, hmt]
  · intro r2 hty2 hmt2
    have htag : rowTag r2 = "exercise" := by simp [rowTag, hty2]
    refine ⟨{ id := r2.id, name := r2.name, date := r2.date,
              measurement_type := jsOr r2.measurement_type "weight_reps",
              weight := jsOr r2.weight "", reps := jsOr r2.reps "",
              distance := jsOr r2.distance "", time := jsOr r2.time "",
              notes := r2.notes }, ?_, ?_⟩
    · simp [mapRowToLog, htag]
    · simp [jsOr, hmt2]

/-- A legacy row with a NULL discriminator and a non-empty description. -/
def c10Row : Row :=
  { id := 5, name := "Legacy", date := "2023-12-01", type := none,
    description := some "old wod entry", result := some "12:00",
    weight := none, reps := none, distance := none, time := none,
    measurement_type := none, notes := none }

/-- A store on the current schema holding c10Row. -/
def c10Db : DB :=
  { tableExists := true, hasMeasurementType := true, hasDistance := true,
    hasTime := true, rows := [c10Row], nextId := 6 }

/-- C10, checked on the concrete store c10Db. -/
theorem c10_kind_inference_witness :
    (∃ logs, (getAllLogsM ⟨c10Db, []⟩).1 = Except.ok logs ∧
      mapRowToLog c10Row ∈ logs) ∧
      ((c10Row.description ≠ none ∧ c10Row.description ≠ some "") →
        ∃ v, mapRowToLog c10Row = WorkoutLog.wod v) ∧
      (¬(c10Row.description ≠ none ∧ c10Row.description ≠ some "") →
        ∃ e2, mapRowToLog c10Row = WorkoutLog.exercise e2 ∧
          (c10Row.measurement_type = none → e2.measurement_type = "weight_reps")) ∧
      (∀ r2 : Row, r2.type = some "exercise" → r2.measurement_type = none →
        ∃ e2, mapRowToLog r2 = WorkoutLog.exercise e2 ∧
          e2.measurement_type = "weight_reps") :=
  c10_kind_inference c10Db [] c10Row rfl (by decide) rfl

end WorkoutDb
